import Mathlib

/-!
Shallow embedding of the TalkAI authentication subsystem.

Each definition is translated from the corresponding JavaScript source:
- `backend/services/otpService.js` (OTP generation, storage, verification)
- `backend/controllers/authController.js` (signin, password reset flows)
- the JWT service, auth middleware and the Mongoose `User` model.

Times are modelled as milliseconds (`Nat`), mirroring `Date.now()`.
`Math.random()` is modelled as a rational number `r` with `0 ≤ r < 1`.
-/

namespace TalkAI

/-! ## OTP service (`backend/services/otpService.js`) -/

/-- The `{valid, message}` result object returned by `verifyOTP`. -/
structure OTPResult where
  valid : Bool
  message : String
deriving DecidableEq, Repr

/-- The per-email record stored in `otpStore`: `{otp, expiresAt, attempts}`. -/
structure OTPData where
  otp : String
  expiresAt : Nat
  attempts : Nat
deriving DecidableEq, Repr

/-- `generateOTP()` = `Math.floor(100000 + Math.random() * 900000)`,
with `Math.random()` modelled as a rational `r ∈ [0, 1)`. -/
def generateOTP (r : ℚ) : ℤ := ⌊(100000 : ℚ) + r * 900000⌋

/-- `storeOTP(email, otp)`: stores `{otp, expiresAt := now + 10*60*1000, attempts := 0}`. -/
def storeOTP (otp : String) (now : Nat) : OTPData :=
  { otp := otp, expiresAt := now + 10 * 60 * 1000, attempts := 0 }

/-- `verifyOTP(email, otp)` as a state transformer on the (per-email) stored
challenge. Returns the `{valid, message}` result and the new stored state
(`none` = entry deleted / absent).
Order of checks mirrors the source: missing entry, expiry (`Date.now() >
expiresAt`, strict), attempt exhaustion (`attempts >= 3`, deleting), then the
attempt increment followed by the equality check. -/
def verifyOTP (st : Option OTPData) (now : Nat) (otp : String) :
    OTPResult × Option OTPData :=
  match st with
  | none => (⟨false, "OTP not found or expired"⟩, none)
  | some d =>
    if d.expiresAt < now then
      (⟨false, "OTP has expired"⟩, none)
    else if 3 ≤ d.attempts then
      (⟨false, "Too many failed attempts. Please request a new OTP."⟩, none)
    else
      let d2 := { d with attempts := d.attempts + 1 }
      if d2.otp = otp then
        (⟨true, "OTP verified successfully"⟩, none)
      else
        (⟨false, "Invalid OTP"⟩, some d2)

/-- `getRemainingTime(email)`: `max(0, floor((expiresAt - now) / 1000))`,
0 when no entry is stored. -/
def getRemainingTime (st : Option OTPData) (now : Nat) : Nat :=
  match st with
  | none => 0
  | some d => (d.expiresAt - now) / 1000

/-! ## JWT service (`backend/services/jwtService.js`) -/

/-- The claim set embedded in a token. `generateToken` fills the first four
fields; `generateShortToken` for password reset fills `userId` and `type`
(leaving the rest absent). `type` is the intent tag. -/
structure JwtPayload where
  userId : Nat
  email : Option String
  isVerified : Option Bool
  googleId : Option String
  type : Option String
deriving DecidableEq, Repr

/-- A signed token: payload plus the registered claims set by `jwt.sign`
(`issuer`, `audience`, expiry) and the signing secret (standing in for the
cryptographic signature). -/
structure Jwt where
  payload : JwtPayload
  issuer : String
  audience : String
  expMs : Nat
  sig : String
deriving DecidableEq, Repr

/-- `generateShortToken(payload, expiresIn)`: `jwt.sign(payload, secret,
{expiresIn, issuer: 'talkai-backend', audience: 'talkai-users'})`. -/
def generateShortToken (secret : String) (now : Nat) (payload : JwtPayload)
    (ttlMs : Nat) : Jwt :=
  { payload := payload, issuer := "talkai-backend", audience := "talkai-users",
    expMs := now + ttlMs, sig := secret }

/-- `verifyToken(token)`: `jwt.verify(token, secret, {issuer, audience})`.
Succeeds iff the signature matches the secret, issuer and audience match, and
the token is not expired; returns the decoded payload. No claim other than
the registered ones is inspected — in particular the intent tag `type` is
not checked here. -/
def verifyToken (secret : String) (now : Nat) (tok : Jwt) : Option JwtPayload :=
  if tok.sig = secret ∧ tok.issuer = "talkai-backend" ∧
      tok.audience = "talkai-users" ∧ now < tok.expMs then
    some tok.payload
  else
    none

/-! ## User model (`backend/models/User.js`) -/

/-- A stored user document (the fields this subsystem reads or writes).
`password` holds the bcrypt hash (`none` = external-only account). -/
structure UserR where
  uid : Nat
  email : String
  password : Option String
  googleId : Option String
  isVerified : Bool
  resetPasswordToken : Option Jwt
  resetPasswordExpires : Option Nat
  name : Option String
  picture : Option String
  lastLogin : Nat
deriving DecidableEq, Repr

/-- `generateToken(user)`: session token with payload
`{userId, email, isVerified, googleId: user.googleId || null}` — no intent
tag — signed for 7 days. -/
def generateToken (secret : String) (now : Nat) (u : UserR) : Jwt :=
  { payload := { userId := u.uid, email := some u.email,
                 isVerified := some u.isVerified, googleId := u.googleId,
                 type := none },
    issuer := "talkai-backend", audience := "talkai-users",
    expMs := now + 7 * 24 * 60 * 60 * 1000, sig := secret }

/-- `userSchema.methods.comparePassword`: `bcrypt.compare(candidate, this.password)`
wrapped in try/catch; any internal error is rethrown as the fixed message
`'Password comparison failed'`. `bcompare` models `bcrypt.compare`, which
rejects (throws) when the stored hash is absent. -/
def comparePassword (bcompare : String → String → Except String Bool)
    (stored : Option String) (candidate : String) : Except String Bool :=
  match stored with
  | none => .error "Password comparison failed"
  | some h =>
    match bcompare candidate h with
    | .ok b => .ok b
    | .error _ => .error "Password comparison failed"

/-! ## HTTP responses -/

/-- The JSON body / status a controller sends: `{success, message|error}`
together with the HTTP status code (`res.json` alone means 200). -/
structure HttpResp where
  status : Nat
  success : Bool
  message : String
deriving DecidableEq, Repr

/-! ## Auth middleware (`authenticateToken`, `rateLimitOTP`) -/

/-- `authenticateToken(req, res, next)`, the part after header extraction:
verify the token, load the user by `payload.userId`, reject unverified users,
otherwise attach the user to the request (`Except.ok`). The decoded payload's
`type` (intent) claim is never inspected. -/
def authenticateToken (secret : String) (now : Nat)
    (findById : Nat → Option UserR) (tok : Option Jwt) : Except HttpResp UserR :=
  match tok with
  | none => .error ⟨401, false, "Access token required"⟩
  | some t =>
    match verifyToken secret now t with
    | none => .error ⟨401, false, "Invalid or expired token"⟩
    | some p =>
      match findById p.userId with
      | none => .error ⟨401, false, "User not found"⟩
      | some u =>
        if u.isVerified then .ok u
        else .error ⟨403, false, "Email not verified. Please verify your email address."⟩

/-- One per-key entry of the OTP rate limiter: `{count, resetTime}`.
`count` is an integer so that non-negativity is a real invariant. -/
structure RateEntry where
  count : ℤ
  resetTime : Nat
deriving DecidableEq, Repr

/-- `rateLimitOTP(req, res, next)` as a state transformer on one key's entry:
take the stored entry or a fresh `{count: 0, resetTime: now + 60*1000}`;
reset the counter if `now > resetTime`; deny (429) when `count >= 3`
(leaving the map unchanged); otherwise increment and store. -/
def rateLimitOTP (st : Option RateEntry) (now : Nat) : Bool × Option RateEntry :=
  let c0 := st.getD ⟨0, now + 60 * 1000⟩
  let c1 := if c0.resetTime < now then ⟨0, now + 60 * 1000⟩ else c0
  if 3 ≤ c1.count then (false, st)
  else (true, some ⟨c1.count + 1, c1.resetTime⟩)

/-! ## Auth controller (`backend/controllers/authController.js`) -/

/-- `signin(req, res)` as a function of the lookup result for the given
email. Returns the response and the saved user record (`none` when no save
happened). `bcompare` models `bcrypt.compare`; a comparison error propagates
to the outer catch (500). The generated session token is not part of the
modelled response body. -/
def signin (bcompare : String → String → Except String Bool) (now : Nat)
    (findByEmail : String → Option UserR) (email password : String) :
    HttpResp × Option UserR :=
  if email = "" ∨ password = "" then
    (⟨400, false, "Email and password are required"⟩, none)
  else
    match findByEmail email with
    | none => (⟨401, false, "Invalid email or password"⟩, none)
    | some u =>
      if u.password = none then
        (⟨401, false, "This account uses Google OAuth. Please sign in with Google."⟩, none)
      else
        match comparePassword bcompare u.password password with
        | .error _ => (⟨500, false, "Sign in failed"⟩, none)
        | .ok false => (⟨401, false, "Invalid email or password"⟩, none)
        | .ok true =>
          if u.isVerified then
            (⟨200, true, "Sign in successful"⟩, some { u with lastLogin := now })
          else
            (⟨403, false, "Email not verified. Please verify your email address."⟩, none)

/-- `requestPasswordReset(req, res)`: absent user or external-only user get
the generic success message; otherwise a 1-hour reset token with payload
`{userId, type: 'password-reset'}` is minted, persisted on the user, and the
reset email is sent (`sendOk` models whether `sendPasswordResetEmail`
resolves; its rejection reaches the outer catch after the save). Returns the
response and the saved user (`none` when no save happened). -/
def requestPasswordReset (secret : String) (now : Nat)
    (findByEmail : String → Option UserR) (email : String) (sendOk : Bool) :
    HttpResp × Option UserR :=
  if email = "" then
    (⟨400, false, "Email is required"⟩, none)
  else
    match findByEmail email with
    | none =>
      (⟨200, true, "If the email exists, a password reset link has been sent"⟩, none)
    | some u =>
      if u.password = none then
        (⟨200, true, "If the email exists, a password reset link has been sent"⟩, none)
      else
        let resetToken := generateShortToken secret now
          { userId := u.uid, email := none, isVerified := none,
            googleId := none, type := some "password-reset" } (60 * 60 * 1000)
        let u1 := { u with resetPasswordToken := some resetToken,
                           resetPasswordExpires := some (now + 60 * 60 * 1000) }
        if sendOk then
          (⟨200, true, "If the email exists, a password reset link has been sent"⟩, some u1)
        else
          (⟨500, false, "Failed to request password reset"⟩, some u1)

/-- `resetPassword(req, res)`: validate inputs, verify the token and its
`type === 'password-reset'` intent, load the user by the token's subject,
require the stored reset token to equal the presented one and the stored
expiry to lie in the future (`resetPasswordExpires < new Date()`; a cleared
`null` expiry coerces to 0), then set the new password (hashed by the
pre-save hook, modelled by `hash`) and clear the reset token and expiry in
the same save. Returns the response and the saved user (`none` = no save). -/
def resetPassword (secret : String) (hash : String → String) (now : Nat)
    (findById : Nat → Option UserR) (token : Option Jwt) (newPassword : String) :
    HttpResp × Option UserR :=
  match token with
  | none => (⟨400, false, "Token and new password are required"⟩, none)
  | some tok =>
    if newPassword = "" then
      (⟨400, false, "Token and new password are required"⟩, none)
    else if newPassword.length < 6 then
      (⟨400, false, "New password must be at least 6 characters long"⟩, none)
    else
      match verifyToken secret now tok with
      | none => (⟨400, false, "Invalid or expired reset token"⟩, none)
      | some p =>
        if p.type ≠ some "password-reset" then
          (⟨400, false, "Invalid or expired reset token"⟩, none)
        else
          match findById p.userId with
          | none => (⟨400, false, "Invalid or expired reset token"⟩, none)
          | some u =>
            if u.resetPasswordToken ≠ some tok then
              (⟨400, false, "Invalid or expired reset token"⟩, none)
            else if u.resetPasswordExpires.getD 0 < now then
              (⟨400, false, "Reset token has expired"⟩, none)
            else
              (⟨200, true, "Password reset successfully"⟩,
               some { u with password := some (hash newPassword),
                             resetPasswordToken := none,
                             resetPasswordExpires := none })

/-! ## Google identity linking (`User.findOrCreateGoogleUser`) -/

/-- A normalized Google profile `{id, emails, displayName, photos}`. -/
structure GoogleProfile where
  id : String
  emails : List String
  displayName : Option String
  photos : List String
deriving DecidableEq, Repr

/-- `User.findByGoogleId(googleId)`: first stored user with that google id. -/
def findByGoogleId (g : String) (st : List UserR) : Option UserR :=
  st.find? fun u => decide (u.googleId = some g)

/-- `User.findByEmail(email)`: `findOne({email: email.toLowerCase()})`. -/
def findByEmailU (e : String) (st : List UserR) : Option UserR :=
  st.find? fun u => decide (u.email = e.toLower)

/-- `user.save()` on an existing document: replace the stored document with
the modified one (matched by id). -/
def saveReplace (st : List UserR) (u : UserR) : List UserR :=
  st.map fun v => if v.uid = u.uid then u else v

/-- The create branch of `findOrCreateGoogleUser`: `new User({googleId,
email: emails[0] (lowercased by the schema) or null, isVerified: true,
profile})` followed by `save()`. The schema requires an email, so saving
with no email fails (`none`). `nextId` is the id the store assigns. -/
def createGoogleUser (nextId now : Nat) (p : GoogleProfile) (st : List UserR) :
    Option (UserR × List UserR) :=
  match p.emails.head? with
  | none => none
  | some e =>
    let u : UserR :=
      { uid := nextId, email := e.toLower, password := none,
        googleId := some p.id, isVerified := true, resetPasswordToken := none,
        resetPasswordExpires := none, name := p.displayName,
        picture := p.photos.head?, lastLogin := now }
    some (u, st ++ [u])

/-- `User.findOrCreateGoogleUser(googleProfile)`: (1) look up by google id —
if found, update `lastLogin` and save; (2) else look up by the profile's
first email — if found, attach the google id, force `isVerified := true`,
update `lastLogin` and save; (3) else create a new pre-verified user. -/
def findOrCreateGoogleUser (nextId now : Nat) (p : GoogleProfile)
    (st : List UserR) : Option (UserR × List UserR) :=
  match findByGoogleId p.id st with
  | some u =>
    let u1 := { u with lastLogin := now }
    some (u1, saveReplace st u1)
  | none =>
    match p.emails.head? with
    | some e =>
      match findByEmailU e st with
      | some u =>
        let u1 := { u with googleId := some p.id, isVerified := true,
                           lastLogin := now }
        some (u1, saveReplace st u1)
      | none => createGoogleUser nextId now p st
    | none => createGoogleUser nextId now p st

/-! ## Concrete test fixtures (used by witnesses and counterexamples) -/

/-- A verified password-account user. -/
def demoUser : UserR :=
  { uid := 1, email := "a@b.com", password := some "hashedpw", googleId := none,
    isVerified := true, resetPasswordToken := none, resetPasswordExpires := none,
    name := none, picture := none, lastLogin := 0 }

/-- A store lookup resolving only `demoUser`. -/
def demoFindById : Nat → Option UserR :=
  fun i => if i = 1 then some demoUser else none

/-- An email lookup resolving only `demoUser`. -/
def demoFindByEmail : String → Option UserR :=
  fun e => if e = "a@b.com" then some demoUser else none

/-- A reset token for `demoUser` as `requestPasswordReset` mints it. -/
def demoResetToken : Jwt :=
  generateShortToken "secret" 0
    { userId := 1, email := none, isVerified := none, googleId := none,
      type := some "password-reset" } (60 * 60 * 1000)

/-- `demoUser` with the reset token persisted. -/
def demoResetUser : UserR :=
  { demoUser with resetPasswordToken := some demoResetToken,
                  resetPasswordExpires := some 3600000 }

/-- Lookup resolving the user holding the pending reset token. -/
def demoResetFind1 : Nat → Option UserR :=
  fun i => if i = 1 then some demoResetUser else none

/-- A stand-in for bcrypt hashing in witnesses. -/
def demoHash : String → String := fun s => "h:" ++ s

/-- Lookup after the first reset completed (token cleared, password set). -/
def demoResetFind2 : Nat → Option UserR :=
  fun i =>
    if i = 1 then
      some { demoResetUser with password := some (demoHash "abcdef"),
                                resetPasswordToken := none,
                                resetPasswordExpires := none }
    else none

/-- A `bcrypt.compare` whose promise always rejects. -/
def failingCompare : String → String → Except String Bool :=
  fun _ _ => .error "bcrypt internal failure"

/-- A plain-equality `bcrypt.compare` stand-in. -/
def demoCompare : String → String → Except String Bool :=
  fun c h => .ok (decide (c = h))

/-- An email lookup that finds nobody. -/
def emptyFind : String → Option UserR := fun _ => none

/-- A concrete Google profile for the linking witness. -/
def demoProfile : GoogleProfile :=
  { id := "g1", emails := ["A@B.com"], displayName := some "Name", photos := [] }

/-! ## Theorems -/

/-- C2: starting from a fresh challenge, three verify calls with a wrong
candidate each return `Invalid OTP` and advance the attempt counter to 1, 2,
3; the fourth call — presenting the correct stored code — returns the
exhaustion message and deletes the challenge. Moreover a challenge whose
attempt counter has reached 3 never verifies any candidate (correct or not),
and neither does a deleted challenge. -/
theorem verifyOTP_fourth_attempt_exhausted
    (d : OTPData) (t1 t2 t3 t4 : Nat) (w : String)
    (ha : d.attempts = 0) (hw : w ≠ d.otp)
    (h1 : t1 ≤ d.expiresAt) (h2 : t2 ≤ d.expiresAt)
    (h3 : t3 ≤ d.expiresAt) (h4 : t4 ≤ d.expiresAt) :
    verifyOTP (some d) t1 w =
      (⟨false, "Invalid OTP"⟩, some { d with attempts := 1 }) ∧
    verifyOTP (some { d with attempts := 1 }) t2 w =
      (⟨false, "Invalid OTP"⟩, some { d with attempts := 2 }) ∧
    verifyOTP (some { d with attempts := 2 }) t3 w =
      (⟨false, "Invalid OTP"⟩, some { d with attempts := 3 }) ∧
    verifyOTP (some { d with attempts := 3 }) t4 d.otp =
      (⟨false, "Too many failed attempts. Please request a new OTP."⟩, none) ∧
    (∀ (e : OTPData) (t : Nat) (c : String), 3 ≤ e.attempts →
      ((verifyOTP (some e) t c).1).valid = false) ∧
    (∀ (t : Nat) (c : String), ((verifyOTP none t c).1).valid = false) := by
  refine ⟨?_, ?_, ?_, ?_, ?_, ?_⟩
  · simp [verifyOTP, Nat.not_lt.mpr h1, ha, Ne.symm hw]
  · simp [verifyOTP, Nat.not_lt.mpr h2, Ne.symm hw]
  · simp [verifyOTP, Nat.not_lt.mpr h3, Ne.symm hw]
  · simp [verifyOTP, Nat.not_lt.mpr h4]
  · intro e t c he
    rcases lt_or_ge e.expiresAt t with h | h
    · simp [verifyOTP, h]
    · simp [verifyOTP, Nat.not_lt.mpr h, he]
  · intro t c
    simp [verifyOTP]

/-- C2 witness: the four-call scenario evaluated on a concrete challenge. -/
theorem verifyOTP_fourth_attempt_exhausted_witness :
    verifyOTP (some ⟨"123456", 600000, 0⟩) 1 "000000" =
      (⟨false, "Invalid OTP"⟩, some ⟨"123456", 600000, 1⟩) ∧
    verifyOTP (some ⟨"123456", 600000, 1⟩) 2 "000000" =
      (⟨false, "Invalid OTP"⟩, some ⟨"123456", 600000, 2⟩) ∧
    verifyOTP (some ⟨"123456", 600000, 2⟩) 3 "000000" =
      (⟨false, "Invalid OTP"⟩, some ⟨"123456", 600000, 3⟩) ∧
    verifyOTP (some ⟨"123456", 600000, 3⟩) 4 "123456" =
      (⟨false, "Too many failed attempts. Please request a new OTP."⟩, none) ∧
    (∀ (e : OTPData) (t : Nat) (c : String), 3 ≤ e.attempts →
      ((verifyOTP (some e) t c).1).valid = false) ∧
    (∀ (t : Nat) (c : String), ((verifyOTP none t c).1).valid = false) :=
  verifyOTP_fourth_attempt_exhausted ⟨"123456", 600000, 0⟩ 1 2 3 4 "000000"
    rfl (by decide) (by decide) (by decide) (by decide) (by decide)

/-- C7: a stored challenge expires at issued-at + 10 minutes (600000 ms);
with fewer than 3 prior attempts and the correct code, verification one
second before that instant succeeds, one second after returns `OTP has
expired` and deletes the challenge, and at the exact expiry instant the
challenge is not yet treated as expired (the source compares
`Date.now() > expiresAt` strictly), so the correct code still verifies. -/
theorem verifyOTP_expiry_boundary (code : String) (t a : Nat) (ha : a < 3) :
    storeOTP code t = ⟨code, t + 600000, 0⟩ ∧
    verifyOTP (some ⟨code, t + 600000, a⟩) (t + 600000 - 1000) code =
      (⟨true, "OTP verified successfully"⟩, none) ∧
    verifyOTP (some ⟨code, t + 600000, a⟩) (t + 600000 + 1000) code =
      (⟨false, "OTP has expired"⟩, none) ∧
    verifyOTP (some ⟨code, t + 600000, a⟩) (t + 600000) code =
      (⟨true, "OTP verified successfully"⟩, none) := by
  have hna : ¬ 3 ≤ a := Nat.not_le.mpr ha
  refine ⟨rfl, ?_, ?_, ?_⟩
  · have hlt : ¬ (t + 600000 < t + 600000 - 1000) := by omega
    simp [verifyOTP, hlt, hna]
  · have hlt : t + 600000 < t + 600000 + 1000 := by omega
    simp [verifyOTP, hlt]
  · simp [verifyOTP, hna]

/-- C7 witness: the boundary scenario on a concrete challenge issued at 0. -/
theorem verifyOTP_expiry_boundary_witness :
    storeOTP "123456" 0 = ⟨"123456", 600000, 0⟩ ∧
    verifyOTP (some ⟨"123456", 600000, 0⟩) 599000 "123456" =
      (⟨true, "OTP verified successfully"⟩, none) ∧
    verifyOTP (some ⟨"123456", 600000, 0⟩) 601000 "123456" =
      (⟨false, "OTP has expired"⟩, none) ∧
    verifyOTP (some ⟨"123456", 600000, 0⟩) 600000 "123456" =
      (⟨true, "OTP verified successfully"⟩, none) :=
  verifyOTP_expiry_boundary "123456" 0 0 (by decide)

/-- C4 counterexample: `generateOTP` never produces a value below 100000 for
any `Math.random()` outcome, so the 6-character strings beginning with `'0'`
(codes 000000–099999) are not possible outputs — the generator does not
cover the full range the claim states. -/
theorem generateOTP_below_100000_impossible :
    ¬ ∃ r : ℚ, 0 ≤ r ∧ r < 1 ∧ generateOTP r < 100000 := by
  rintro ⟨r, hr0, -, hlt⟩
  have h : (100000 : ℤ) ≤ generateOTP r := by
    apply Int.le_floor.mpr
    have hr : (0 : ℚ) ≤ r * 900000 := by positivity
    push_cast
    linarith
  omega

/-- C4 (amended): `generateOTP` is exactly the integers 100000–999999: every
`Math.random()` outcome lands in that interval, and every value in the
interval is attained by some outcome — so every 6-digit code with a nonzero
leading digit is possible, and none with a leading zero is. -/
theorem generateOTP_range_exact :
    (∀ r : ℚ, 0 ≤ r → r < 1 →
      100000 ≤ generateOTP r ∧ generateOTP r ≤ 999999) ∧
    (∀ n : ℤ, 100000 ≤ n → n ≤ 999999 →
      ∃ r : ℚ, 0 ≤ r ∧ r < 1 ∧ generateOTP r = n) := by
  constructor
  · intro r h0 h1
    constructor
    · apply Int.le_floor.mpr
      push_cast
      nlinarith
    · have h : generateOTP r < 1000000 := by
        apply Int.floor_lt.mpr
        push_cast
        nlinarith
      omega
  · intro n hlo hhi
    refine ⟨((n : ℚ) - 100000) / 900000, ?_, ?_, ?_⟩
    · apply div_nonneg _ (by norm_num)
      have h : (100000 : ℚ) ≤ (n : ℚ) := by exact_mod_cast hlo
      linarith
    · rw [div_lt_one (by norm_num)]
      have h : (n : ℚ) ≤ 999999 := by exact_mod_cast hhi
      linarith
    · unfold generateOTP
      have h : (100000 : ℚ) + ((n : ℚ) - 100000) / 900000 * 900000 = (n : ℚ) := by
        field_simp
      rw [h, Int.floor_intCast]

/-- C4 witness: the bounds applied at the concrete outcome 1/2. -/
theorem generateOTP_range_exact_witness :
    100000 ≤ generateOTP (1 / 2) ∧ generateOTP (1 / 2) ≤ 999999 :=
  generateOTP_range_exact.1 (1 / 2) (by norm_num) (by norm_num)

/-- C8: within one 60-second fixed window the limiter allows requests 1–3 and
denies request 4; a denial leaves the entry unchanged, so every later
request in the same window is denied too; once `now` passes the window-reset
time the counter reinitializes and the first request of the new window is
allowed; and the counter never becomes negative. -/
theorem rateLimitOTP_fixed_window :
    (∀ t0 t1 t2 t3 : Nat,
      t1 ≤ t0 + 60000 → t2 ≤ t0 + 60000 → t3 ≤ t0 + 60000 →
      rateLimitOTP none t0 = (true, some ⟨1, t0 + 60000⟩) ∧
      rateLimitOTP (some ⟨1, t0 + 60000⟩) t1 = (true, some ⟨2, t0 + 60000⟩) ∧
      rateLimitOTP (some ⟨2, t0 + 60000⟩) t2 = (true, some ⟨3, t0 + 60000⟩) ∧
      rateLimitOTP (some ⟨3, t0 + 60000⟩) t3 = (false, some ⟨3, t0 + 60000⟩)) ∧
    (∀ (R t : Nat) (c : ℤ), 3 ≤ c → t ≤ R →
      rateLimitOTP (some ⟨c, R⟩) t = (false, some ⟨c, R⟩)) ∧
    (∀ (R t : Nat) (c : ℤ), R < t →
      rateLimitOTP (some ⟨c, R⟩) t = (true, some ⟨1, t + 60000⟩)) ∧
    (∀ (st : Option RateEntry) (t : Nat), (∀ e ∈ st, 0 ≤ e.count) →
      ∀ e ∈ (rateLimitOTP st t).2, 0 ≤ e.count) := by
  refine ⟨?_, ?_, ?_, ?_⟩
  · intro t0 t1 t2 t3 h1 h2 h3
    refine ⟨?_, ?_, ?_, ?_⟩
    · simp [rateLimitOTP, Nat.not_lt.mpr (Nat.le_add_right t0 60000)]
    · simp [rateLimitOTP, Nat.not_lt.mpr h1]
    · simp [rateLimitOTP, Nat.not_lt.mpr h2]
    · simp [rateLimitOTP, Nat.not_lt.mpr h3]
  · intro R t c hc ht
    simp [rateLimitOTP, Nat.not_lt.mpr ht, hc]
  · intro R t c hR
    simp [rateLimitOTP, hR]
  · intro st t hst e he
    match st with
    | none =>
      simp [rateLimitOTP, Nat.not_lt.mpr (Nat.le_add_right t 60000)] at he
      rw [← he]
      simp
    | some ⟨c, R⟩ =>
      have h0 : (0 : ℤ) ≤ c := by simpa using hst ⟨c, R⟩ rfl
      rcases lt_or_ge R t with hR | hR
      · simp [rateLimitOTP, hR] at he
        rw [← he]
        simp
      · by_cases hc : 3 ≤ c
        · simp [rateLimitOTP, Nat.not_lt.mpr hR, hc] at he
          rw [← he]
          simpa using h0
        · simp [rateLimitOTP, Nat.not_lt.mpr hR, hc] at he
          rw [← he]
          simp
          omega

/-- C8 witness: the exhausted-window denial evaluated concretely. -/
theorem rateLimitOTP_fixed_window_witness :
    rateLimitOTP (some ⟨3, 60000⟩) 60000 = (false, some ⟨3, 60000⟩) :=
  rateLimitOTP_fixed_window.2.1 60000 60000 3 (by decide) (by decide)

/-- C6: a password-reset request for an email with no stored record and one
for any stored user (password account or external-only) produce the same
response: status 200 with the identical generic success message, assuming the
outbound reset email (when one is sent at all) is dispatched successfully —
so the response does not reveal whether the email exists. -/
theorem requestPasswordReset_non_enumeration
    (secret : String) (now : Nat) (find : String → Option UserR)
    (e1 e2 : String) (u : UserR)
    (h1 : e1 ≠ "") (h2 : e2 ≠ "")
    (habsent : find e1 = none) (hfound : find e2 = some u) :
    (requestPasswordReset secret now find e1 true).1 =
      (requestPasswordReset secret now find e2 true).1 ∧
    (requestPasswordReset secret now find e1 true).1 =
      ⟨200, true, "If the email exists, a password reset link has been sent"⟩ := by
  have r1 : (requestPasswordReset secret now find e1 true).1 =
      ⟨200, true, "If the email exists, a password reset link has been sent"⟩ := by
    simp [requestPasswordReset, h1, habsent]
  have r2 : (requestPasswordReset secret now find e2 true).1 =
      ⟨200, true, "If the email exists, a password reset link has been sent"⟩ := by
    by_cases hp : u.password = none
    · simp [requestPasswordReset, h2, hfound, hp]
    · simp [requestPasswordReset, h2, hfound, hp]
  exact ⟨r1.trans r2.symm, r1⟩

/-- C6 witness: reset requested for the unknown `nouser@x.com` and for the
registered `a@b.com` return the identical concrete response. -/
theorem requestPasswordReset_non_enumeration_witness :
    (requestPasswordReset "secret" 0 demoFindByEmail "nouser@x.com" true).1 =
      (requestPasswordReset "secret" 0 demoFindByEmail "a@b.com" true).1 ∧
    (requestPasswordReset "secret" 0 demoFindByEmail "nouser@x.com" true).1 =
      ⟨200, true, "If the email exists, a password reset link has been sent"⟩ :=
  requestPasswordReset_non_enumeration "secret" 0 demoFindByEmail
    "nouser@x.com" "a@b.com" demoUser (by decide) (by decide) (by decide) (by decide)

/-- C10: a signin that does not answer 200 performs no save at all, leaving
the stored user record unchanged; and whenever a record is saved, the
response is the 200 success, the saved record differs from the stored one
only in `lastLogin`, and every check (password present and matching,
account verified) passed. -/
theorem signin_failure_frame
    (bcompare : String → String → Except String Bool) (now : Nat)
    (find : String → Option UserR) (email pw : String) :
    ((signin bcompare now find email pw).1.status ≠ 200 →
      (signin bcompare now find email pw).2 = none) ∧
    (∀ v, (signin bcompare now find email pw).2 = some v →
      (signin bcompare now find email pw).1 = ⟨200, true, "Sign in successful"⟩ ∧
      ∃ u, find email = some u ∧ v = { u with lastLogin := now } ∧
        comparePassword bcompare u.password pw = .ok true ∧
        u.isVerified = true) := by
  by_cases he : email = "" ∨ pw = ""
  · have hs : signin bcompare now find email pw =
        (⟨400, false, "Email and password are required"⟩, none) := by
      simp [signin, he]
    rw [hs]
    simp
  · cases hf : find email with
    | none =>
      have hs : signin bcompare now find email pw =
          (⟨401, false, "Invalid email or password"⟩, none) := by
        simp [signin, he, hf]
      rw [hs]
      simp
    | some u =>
      by_cases hpn : u.password = none
      · have hs : signin bcompare now find email pw =
            (⟨401, false, "This account uses Google OAuth. Please sign in with Google."⟩,
             none) := by
          simp [signin, he, hf, hpn]
        rw [hs]
        simp
      · cases hc : comparePassword bcompare u.password pw with
        | error msg =>
          have hs : signin bcompare now find email pw =
              (⟨500, false, "Sign in failed"⟩, none) := by
            simp [signin, he, hf, hpn, hc]
          rw [hs]
          simp
        | ok b =>
          cases b with
          | false =>
            have hs : signin bcompare now find email pw =
                (⟨401, false, "Invalid email or password"⟩, none) := by
              simp [signin, he, hf, hpn, hc]
            rw [hs]
            simp
          | true =>
            by_cases hv : u.isVerified
            · have hs : signin bcompare now find email pw =
                  (⟨200, true, "Sign in successful"⟩,
                   some { u with lastLogin := now }) := by
                simp [signin, he, hf, hpn, hc, hv]
              rw [hs]
              refine ⟨fun h => absurd rfl h, fun v hv2 => ?_⟩
              obtain rfl : { u with lastLogin := now } = v := Option.some.inj hv2
              exact ⟨rfl, u, rfl, rfl, hc, hv⟩
            · have hs : signin bcompare now find email pw =
                  (⟨403, false, "Email not verified. Please verify your email address."⟩,
                   none) := by
                simp [signin, he, hf, hpn, hc, hv]
              rw [hs]
              simp

/-- C10 witness: a concrete failing signin (unknown email) saves nothing. -/
theorem signin_failure_frame_witness :
    (signin demoCompare 5 emptyFind "a@b.com" "pw").2 = none :=
  (signin_failure_frame demoCompare 5 emptyFind "a@b.com" "pw").1 (by decide)

/-- C3 counterexample: when the underlying bcrypt comparison fails
internally, `comparePassword` does not return `false` — it throws the
generic `Password comparison failed` error to its caller. -/
theorem comparePassword_throws_counterexample :
    comparePassword failingCompare (some "storedhash") "candidate" =
      .error "Password comparison failed" ∧
    comparePassword failingCompare (some "storedhash") "candidate" ≠
      .ok false := by
  refine ⟨rfl, ?_⟩
  intro h
  simp [comparePassword, failingCompare] at h

/-- C3 (amended): `comparePassword` returns the boolean comparison result
when bcrypt succeeds, but on any internal bcrypt error (including a missing
stored hash) it throws — always with the same fixed message, exposing
nothing about the underlying reason — rather than returning `false`. -/
theorem comparePassword_generic_error
    (bcompare : String → String → Except String Bool) (h cand : String) :
    (∀ b, bcompare cand h = .ok b →
      comparePassword bcompare (some h) cand = .ok b) ∧
    (∀ e, bcompare cand h = .error e →
      comparePassword bcompare (some h) cand = .error "Password comparison failed") ∧
    comparePassword bcompare none cand = .error "Password comparison failed" := by
  refine ⟨?_, ?_, rfl⟩
  · intro b hb
    simp [comparePassword, hb]
  · intro e hee
    simp [comparePassword, hee]

/-- C3 witness: the generic error on a concrete failing comparison. -/
theorem comparePassword_generic_error_witness :
    comparePassword failingCompare (some "h1") "pw" =
      .error "Password comparison failed" :=
  (comparePassword_generic_error failingCompare "h1" "pw").2.1
    "bcrypt internal failure" rfl

/-- A successfully verified token decodes to its own payload. -/
theorem verifyToken_payload {secret : String} {now : Nat} {tok : Jwt}
    {p : JwtPayload} (h : verifyToken secret now tok = some p) :
    p = tok.payload := by
  unfold verifyToken at h
  split at h
  · exact (Option.some.inj h).symm
  · cases h

/-- C1 counterexample: a token minted with intent `password-reset` — with
valid signature, issuer, audience and expiry — is accepted by session
authentication: `authenticateToken` attaches the verified subject and
proceeds, because `verifyToken` never inspects the intent tag. -/
theorem authenticateToken_accepts_reset_intent :
    demoResetToken.payload.type = some "password-reset" ∧
    verifyToken "secret" 1000 demoResetToken = some demoResetToken.payload ∧
    authenticateToken "secret" 1000 demoFindById (some demoResetToken) =
      .ok demoUser := by
  refine ⟨rfl, ?_, ?_⟩
  · simp [verifyToken, demoResetToken, generateShortToken]
  · simp [authenticateToken, verifyToken, demoResetToken, generateShortToken,
      demoFindById, demoUser]

/-- C1 (amended): the intent check is one-sided. Password-reset completion
rejects (and never saves on) any verified token whose intent tag is not
`password-reset`, so a session token cannot complete a reset; but session
authentication ignores the intent tag entirely: any cryptographically valid
token whose subject exists and is verified is accepted by
`authenticateToken`, whatever its intent tag — including `password-reset`. -/
theorem intent_check_one_sided :
    (∀ (secret : String) (hash : String → String) (now : Nat)
        (find : Nat → Option UserR) (tok : Jwt) (p : JwtPayload) (newPw : String),
      verifyToken secret now tok = some p →
      p.type ≠ some "password-reset" →
      (resetPassword secret hash now find (some tok) newPw).1.success = false ∧
      (resetPassword secret hash now find (some tok) newPw).2 = none) ∧
    (∀ (secret : String) (now : Nat) (find : Nat → Option UserR)
        (tok : Jwt) (p : JwtPayload) (u : UserR),
      verifyToken secret now tok = some p → find p.userId = some u →
      u.isVerified = true →
      authenticateToken secret now find (some tok) = .ok u) := by
  constructor
  · intro secret hash now find tok p newPw hver hty
    by_cases h0 : newPw = ""
    · simp [resetPassword, h0]
    · by_cases hl : newPw.length < 6
      · simp [resetPassword, h0, hl]
      · simp [resetPassword, h0, hl, hver, hty]
  · intro secret now find tok p u hver hfind hverif
    simp [authenticateToken, hver, hfind, hverif]

/-- C1 witness: both directions applied at the concrete reset token and
`demoUser` — a session-shaped token (no intent tag) is rejected by reset
completion, while `authenticateToken` accepts the reset-intent token. -/
theorem intent_check_one_sided_witness :
    (resetPassword "secret" demoHash 1000 demoFindById
        (some (generateToken "secret" 0 demoUser)) "abcdef").1.success = false ∧
    (resetPassword "secret" demoHash 1000 demoFindById
        (some (generateToken "secret" 0 demoUser)) "abcdef").2 = none ∧
    authenticateToken "secret" 1000 demoFindById (some demoResetToken) =
      .ok demoUser := by
  refine ⟨?_, ?_, ?_⟩
  · exact (intent_check_one_sided.1 "secret" demoHash 1000 demoFindById
      (generateToken "secret" 0 demoUser) (generateToken "secret" 0 demoUser).payload
      "abcdef" (by decide) (by decide)).1
  · exact (intent_check_one_sided.1 "secret" demoHash 1000 demoFindById
      (generateToken "secret" 0 demoUser) (generateToken "secret" 0 demoUser).payload
      "abcdef" (by decide) (by decide)).2
  · exact intent_check_one_sided.2 "secret" 1000 demoFindById demoResetToken
      demoResetToken.payload demoUser (by decide) (by decide) rfl

/-- C5: completing a password reset with a valid, matching, unexpired reset
token succeeds exactly once: the success response sets the hashed new
password and clears `resetPasswordToken`/`resetPasswordExpires` in the same
save, so a second completion presenting the same token fails with
`Invalid or expired reset token` and performs no save — the stored password
stays the one set by the first completion. -/
theorem resetPassword_single_use
    (secret : String) (hash : String → String) (now1 now2 : Nat)
    (find1 find2 : Nat → Option UserR) (tok : Jwt) (u : UserR) (newPw : String)
    (hpw0 : newPw ≠ "") (hlen : ¬ newPw.length < 6)
    (hsig : tok.sig = secret) (hiss : tok.issuer = "talkai-backend")
    (haud : tok.audience = "talkai-users") (hexp1 : now1 < tok.expMs)
    (hty : tok.payload.type = some "password-reset")
    (hfind1 : find1 tok.payload.userId = some u)
    (hmatch : u.resetPasswordToken = some tok)
    (hnotexp : ¬ u.resetPasswordExpires.getD 0 < now1)
    (hfind2 : find2 tok.payload.userId =
      some { u with password := some (hash newPw), resetPasswordToken := none,
                    resetPasswordExpires := none }) :
    resetPassword secret hash now1 find1 (some tok) newPw =
      (⟨200, true, "Password reset successfully"⟩,
       some { u with password := some (hash newPw), resetPasswordToken := none,
                     resetPasswordExpires := none }) ∧
    resetPassword secret hash now2 find2 (some tok) newPw =
      (⟨400, false, "Invalid or expired reset token"⟩, none) := by
  have hver1 : verifyToken secret now1 tok = some tok.payload := by
    simp [verifyToken, hsig, hiss, haud, hexp1]
  constructor
  · simp [resetPassword, hpw0, hlen, hver1, hty, hfind1, hmatch, hnotexp]
  · cases hv2 : verifyToken secret now2 tok with
    | none => simp [resetPassword, hpw0, hlen, hv2]
    | some p =>
      obtain rfl : p = tok.payload := verifyToken_payload hv2
      simp [resetPassword, hpw0, hlen, hv2, hty, hfind2]

/-- C5 witness: the two-completion scenario on concrete data. -/
theorem resetPassword_single_use_witness :
    resetPassword "secret" demoHash 1000 demoResetFind1
        (some demoResetToken) "abcdef" =
      (⟨200, true, "Password reset successfully"⟩,
       some { demoResetUser with password := some (demoHash "abcdef"),
                                 resetPasswordToken := none,
                                 resetPasswordExpires := none }) ∧
    resetPassword "secret" demoHash 2000 demoResetFind2
        (some demoResetToken) "abcdef" =
      (⟨400, false, "Invalid or expired reset token"⟩, none) :=
  resetPassword_single_use "secret" demoHash 1000 2000 demoResetFind1
    demoResetFind2 demoResetToken demoResetUser "abcdef" (by decide) (by decide)
    rfl rfl rfl (by decide) rfl rfl rfl (by decide) rfl

/-- Replacing a document in the store leaves the store size unchanged. -/
theorem saveReplace_length (st : List UserR) (u : UserR) :
    (saveReplace st u).length = st.length := by
  simp [saveReplace]

/-- If a search found `u`, then after replacing `u`-by-id with a `u1` that
still satisfies the predicate, the same search finds `u1`. -/
theorem find?_saveReplace_found (pred : UserR → Bool) (st : List UserR)
    (u u1 : UserR) (hfind : st.find? pred = some u) (huid : u1.uid = u.uid)
    (hp1 : pred u1 = true) :
    (saveReplace st u1).find? pred = some u1 := by
  induction st with
  | nil => cases hfind
  | cons w tl ih =>
    cases hpw : pred w with
    | true =>
      have huw : u = w := by
        rw [List.find?_cons_of_pos _ hpw] at hfind
        exact (Option.some.inj hfind).symm
      subst huw
      simp only [saveReplace, List.map_cons]
      rw [if_pos huid.symm]
      exact List.find?_cons_of_pos _ hp1
    | false =>
      rw [List.find?_cons_of_neg _ (by simp [hpw])] at hfind
      simp only [saveReplace, List.map_cons]
      by_cases hw : w.uid = u1.uid
      · rw [if_pos hw]
        exact List.find?_cons_of_pos _ hp1
      · rw [if_neg hw]
        rw [List.find?_cons_of_neg _ (by simp [hpw])]
        simpa [saveReplace] using ih hfind

/-- If a search found nothing, then after replacing a stored `u`-by-id with
a `u1` that satisfies the predicate, the search finds `u1`. -/
theorem find?_saveReplace_absent (pred : UserR → Bool) (st : List UserR)
    (u u1 : UserR) (hnone : st.find? pred = none) (hmem : u ∈ st)
    (huid : u1.uid = u.uid) (hp1 : pred u1 = true) :
    (saveReplace st u1).find? pred = some u1 := by
  induction st with
  | nil => cases hmem
  | cons w tl ih =>
    have hpw : pred w = false := by
      have h := List.find?_eq_none.mp hnone w (List.mem_cons_self w tl)
      simpa using h
    have hnone2 : tl.find? pred = none := by
      rw [List.find?_cons_of_neg _ (by simp [hpw])] at hnone
      exact hnone
    simp only [saveReplace, List.map_cons]
    by_cases hw : w.uid = u1.uid
    · rw [if_pos hw]
      exact List.find?_cons_of_pos _ hp1
    · rw [if_neg hw]
      rw [List.find?_cons_of_neg _ (by simp [hpw])]
      rcases List.mem_cons.mp hmem with rfl | hmem2
      · exact absurd huid.symm hw
      · simpa [saveReplace] using ih hnone2 hmem2

/-- If a search found nothing, it finds a matching appended document. -/
theorem find?_append_singleton (pred : UserR → Bool) (st : List UserR)
    (u1 : UserR) (hnone : st.find? pred = none) (hp1 : pred u1 = true) :
    (st ++ [u1]).find? pred = some u1 := by
  rw [List.find?_append, hnone, List.find?_cons_of_pos _ hp1]
  rfl

/-- When a user with the profile's google id is already stored,
`findOrCreateGoogleUser` only bumps `lastLogin` and saves in place. -/
theorem findOrCreateGoogleUser_found (n t : Nat) (p : GoogleProfile)
    (st : List UserR) (u : UserR) (h : findByGoogleId p.id st = some u) :
    findOrCreateGoogleUser n t p st =
      some ({ u with lastLogin := t }, saveReplace st { u with lastLogin := t }) := by
  simp [findOrCreateGoogleUser, h]

/-- C9: linking the same Google profile twice is idempotent — the first call
yields a user `u1` and store `st1`, the second call yields the same record
(up to the `lastLogin` bump) and does not grow the store; and when no record
carries the google id yet but one matches the profile's primary email, the
first call attaches the google id to that record, forces `isVerified`, and
creates nothing. -/
theorem findOrCreateGoogleUser_idempotent
    (n1 n2 t1 t2 : Nat) (p : GoogleProfile) (st : List UserR)
    (e : String) (rest : List String) (hem : p.emails = e :: rest) :
    ∃ u1 st1, findOrCreateGoogleUser n1 t1 p st = some (u1, st1) ∧
      ∃ u2 st2, findOrCreateGoogleUser n2 t2 p st1 = some (u2, st2) ∧
        u2 = { u1 with lastLogin := t2 } ∧ st2.length = st1.length ∧
        (findByGoogleId p.id st = none →
          ∀ w, findByEmailU e st = some w →
            u1.uid = w.uid ∧ u1.isVerified = true ∧
            u1.googleId = some p.id ∧ st1.length = st.length) := by
  cases hg : findByGoogleId p.id st with
  | some u =>
    have hg2 : st.find? (fun v => decide (v.googleId = some p.id)) = some u := hg
    have hg3 := List.find?_some hg2
    have hpu : u.googleId = some p.id := by simpa using hg3
    have hfind1 : findByGoogleId p.id (saveReplace st { u with lastLogin := t1 }) =
        some { u with lastLogin := t1 } :=
      find?_saveReplace_found _ st u _ hg rfl (by simp [hpu])
    refine ⟨{ u with lastLogin := t1 }, saveReplace st { u with lastLogin := t1 },
      findOrCreateGoogleUser_found n1 t1 p st u hg,
      _, _, findOrCreateGoogleUser_found n2 t2 p _ _ hfind1,
      rfl, saveReplace_length _ _, ?_⟩
    intro hnone
    cases hnone
  | none =>
    cases hf : findByEmailU e st with
    | some w =>
      have h1eq : findOrCreateGoogleUser n1 t1 p st =
          some ({ w with googleId := some p.id, isVerified := true, lastLogin := t1 },
            saveReplace st
              { w with googleId := some p.id, isVerified := true, lastLogin := t1 }) := by
        simp [findOrCreateGoogleUser, hg, hem, hf]
      have hfind1 : findByGoogleId p.id (saveReplace st
            { w with googleId := some p.id, isVerified := true, lastLogin := t1 }) =
          some { w with googleId := some p.id, isVerified := true, lastLogin := t1 } :=
        find?_saveReplace_absent _ st w _ hg (List.mem_of_find?_eq_some hf) rfl
          (by simp)
      refine ⟨_, _, h1eq, _, _, findOrCreateGoogleUser_found n2 t2 p _ _ hfind1,
        rfl, saveReplace_length _ _, ?_⟩
      intro _ w2 hw2
      obtain rfl : w = w2 := Option.some.inj hw2
      exact ⟨rfl, rfl, rfl, saveReplace_length _ _⟩
    | none =>
      have h1eq : findOrCreateGoogleUser n1 t1 p st =
          some ({ uid := n1, email := e.toLower, password := none,
                  googleId := some p.id, isVerified := true,
                  resetPasswordToken := none, resetPasswordExpires := none,
                  name := p.displayName, picture := p.photos.head?,
                  lastLogin := t1 },
            st ++ [{ uid := n1, email := e.toLower, password := none,
                     googleId := some p.id, isVerified := true,
                     resetPasswordToken := none, resetPasswordExpires := none,
                     name := p.displayName, picture := p.photos.head?,
                     lastLogin := t1 }]) := by
        simp [findOrCreateGoogleUser, hg, hem, hf, createGoogleUser]
      have hfind1 : findByGoogleId p.id
          (st ++ [{ uid := n1, email := e.toLower, password := none,
                    googleId := some p.id, isVerified := true,
                    resetPasswordToken := none, resetPasswordExpires := none,
                    name := p.displayName, picture := p.photos.head?,
                    lastLogin := t1 }]) =
          some { uid := n1, email := e.toLower, password := none,
                 googleId := some p.id, isVerified := true,
                 resetPasswordToken := none, resetPasswordExpires := none,
                 name := p.displayName, picture := p.photos.head?,
                 lastLogin := t1 } :=
        find?_append_singleton _ st _ hg (by simp)
      refine ⟨_, _, h1eq, _, _, findOrCreateGoogleUser_found n2 t2 p _ _ hfind1,
        rfl, saveReplace_length _ _, ?_⟩
      intro _ w2 hw2
      cases hw2

/-- C9 witness: linking a concrete profile twice into an empty store. -/
theorem findOrCreateGoogleUser_idempotent_witness :
    ∃ u1 st1, findOrCreateGoogleUser 7 1 demoProfile [] = some (u1, st1) ∧
      ∃ u2 st2, findOrCreateGoogleUser 8 2 demoProfile st1 = some (u2, st2) ∧
        u2 = { u1 with lastLogin := 2 } ∧ st2.length = st1.length ∧
        (findByGoogleId demoProfile.id [] = none →
          ∀ w, findByEmailU "A@B.com" [] = some w →
            u1.uid = w.uid ∧ u1.isVerified = true ∧
            u1.googleId = some demoProfile.id ∧ st1.length = ([] : List UserR).length) :=
  findOrCreateGoogleUser_idempotent 7 8 1 2 demoProfile [] "A@B.com" [] rfl

end TalkAI
